import Mathlib

/-
Shallow embedding of the TrendChecker core logic (src/logic.py) and of the
inline watchlist scoring in the dashboard (src/streamlit_app.py).

Modelling conventions:
* pandas/Python floats are modelled as exact rationals (ℚ); NaN-able
  quantities (indicator cells not yet past their window, `High` cells) are
  modelled as `Option ℚ` with `none` playing the role of NaN.
* Python comparisons against NaN are `False`; the `nanLt`/`nanLe`/`nanGt`
  helpers reproduce that.
* A DataFrame index entry's calendar date (`d.date()`) is modelled as an
  integer day number; the outcome of parsing `purchase_timestamp_str`
  (`datetime.fromtimestamp(float(s)).date()`) is modelled as
  `Option (Option ℤ)`: `none` = missing/falsy string, `some none` = the
  parse raised (caught by the bare `except: pass`), `some (some d)` =
  parsed to calendar date `d`.
-/

/-- Python/pandas `a < b` where either side may be NaN (NaN compares False). -/
def nanLt (a b : Option ℚ) : Bool :=
  match a, b with
  | some x, some y => decide (x < y)
  | _, _ => false

/-- Python/pandas `a <= b` where either side may be NaN (NaN compares False). -/
def nanLe (a b : Option ℚ) : Bool :=
  match a, b with
  | some x, some y => decide (x ≤ y)
  | _, _ => false

/-- Python/pandas `a > b` where either side may be NaN (NaN compares False). -/
def nanGt (a b : Option ℚ) : Bool :=
  match a, b with
  | some x, some y => decide (y < x)
  | _, _ => false

/-- Multiply a NaN-able value by a constant (NaN propagates). -/
def optMulC (a : Option ℚ) (c : ℚ) : Option ℚ :=
  a.map (fun x => x * c)

/-- One row of the enriched price frame as read by `get_latest_metrics`:
the index's calendar date, `Close`, and the NaN-able `High`, `RSI`, `MA75`
cells. -/
structure MBar where
  date : ℤ
  close : ℚ
  high : Option ℚ
  rsi : Option ℚ
  ma75 : Option ℚ
deriving DecidableEq, Repr

/-- The price frame handed to `get_latest_metrics`: its rows plus whether the
`RSI` / `MA75` columns are present (the source checks `'RSI' in df.columns`
and `'MA75' in df.columns`). -/
structure MetricsFrame where
  bars : List MBar
  hasRSI : Bool
  hasMA75 : Bool
deriving DecidableEq, Repr

/-- `src/logic.py` lines 42-51: the period filter of `get_latest_metrics`.
`target_df = df`; if the timestamp string is truthy and parses, keep the rows
whose calendar date is `>= buy_date` (`mask = [d.date() >= buy_date ...]`),
falling back to `df.tail(1)` when the filtered frame is empty; a parse
failure is swallowed by `except: pass`, leaving `target_df = df`. -/
def targetBars (bars : List MBar) (ts : Option (Option ℤ)) : List MBar :=
  match ts with
  | none => bars
  | some none => bars
  | some (some buyDate) =>
      let filtered := bars.filter (fun b => decide (buyDate ≤ b.date))
      if filtered.isEmpty then bars.drop (bars.length - 1) else filtered

/-- pandas `Series.max()` with `skipna=True`: the maximum of the defined
`High` cells, `none` (NaN) when there is no defined cell. -/
def maxOfHighs (bars : List MBar) : Option ℚ :=
  bars.foldl
    (fun acc b =>
      match acc, b.high with
      | none, h => h
      | some m, none => some m
      | some m, some h => some (max m h)) none

/-- Default row used only to express `iloc[-1]` totally. -/
def mbarDefault : MBar := ⟨0, 0, none, none, none⟩

/-- `src/logic.py` lines 32-63, `get_latest_metrics(df, purchase_price,
purchase_timestamp_str)`: returns
`(current_price, recent_high, rsi, ma75)`.  The empty frame short-circuits to
`(0, 0, 0, 0)`; otherwise `period_high = target_df['High'].max()` and
`recent_high = max(purchase_price, current_price)` when `period_high` is NaN,
else `max(purchase_price, period_high)`. -/
def get_latest_metrics (f : MetricsFrame) (purchase_price : ℚ)
    (ts : Option (Option ℤ)) : ℚ × ℚ × Option ℚ × Option ℚ :=
  if f.bars.isEmpty then (0, 0, some 0, some 0)
  else
    let lastBar := f.bars.getLastD mbarDefault
    let current_price := lastBar.close
    let ma75 := if f.hasMA75 then lastBar.ma75 else some 0
    let target := targetBars f.bars ts
    let period_high := maxOfHighs target
    let recent_high :=
      match period_high with
      | none => max purchase_price current_price
      | some ph => max purchase_price ph
    let rsi := if f.hasRSI then lastBar.rsi else some 0
    (current_price, recent_high, rsi, ma75)

/-- The dict returned by `calculate_exit_strategy`. -/
structure ExitResult where
  order_price : ℚ
  raw_line : ℚ
  label : String
  is_emergency : Bool
  profit_pct : ℚ
deriving DecidableEq, Repr

/-- `src/logic.py` line 74: `profit_pct = ((price_curr - price_buy) / price_buy) * 100`. -/
def profitPct (price_buy price_curr : ℚ) : ℚ :=
  ((price_curr - price_buy) / price_buy) * 100

/-- `src/logic.py` lines 79-100: the zone label set by the mode branch. -/
def zoneLabel (mode : String) (p : ℚ) : String :=
  if mode = "long" then
    if p < 10 then "長期：育成中"
    else if 10 ≤ p ∧ p < 30 then "長期：安定期(トレール15%)"
    else "長期：収穫期(MA75/20%)"
  else "短期トレード"

/-- `src/logic.py` lines 76-96: `used_trail_pct`, the trailing width selected
by the mode branch (user value by default; 0.15 in long Zone 2; 0.20 in long
Zone 3). -/
def usedTrailPct (mode : String) (p trail_pct : ℚ) : ℚ :=
  if mode = "long" then
    if p < 10 then trail_pct
    else if 10 ≤ p ∧ p < 30 then 0.15
    else 0.20
  else trail_pct

/-- `src/logic.py` lines 105-110: `base_line`, stop-loss defense when
`profit_pct <= 5.0`, breakeven (`price_buy`) otherwise. -/
def baseLine (price_buy p stop_pct : ℚ) : ℚ :=
  if p ≤ 5 then price_buy * (1 - stop_pct) else price_buy

/-- `src/logic.py` line 113: `trail_line = price_high * (1 - used_trail_pct)`. -/
def trailLine (price_high utp : ℚ) : ℚ :=
  price_high * (1 - utp)

/-- `src/logic.py` lines 116-118: `ma_line = ma75` only in long mode with
`profit_pct >= 30.0`, else `0`. -/
def maLine (mode : String) (p ma75 : ℚ) : ℚ :=
  if mode = "long" ∧ 30 ≤ p then ma75 else 0

/-- `src/logic.py` line 121: `suggested_price = max(base_line, trail_line, ma_line)`. -/
def suggestedPrice (price_buy price_high ma75 stop_pct trail_pct : ℚ)
    (mode : String) (p : ℚ) : ℚ :=
  max (baseLine price_buy p stop_pct)
    (max (trailLine price_high (usedTrailPct mode p trail_pct)) (maLine mode p ma75))

/-- `src/logic.py` lines 68-138, `calculate_exit_strategy`: zone/label
selection, the three candidate floors, the max rule, and the emergency
override (`suggested_price >= price_curr` forces `price_curr * 0.985` and the
emergency label). -/
def calculate_exit_strategy (price_buy price_curr price_high ma75 stop_pct trail_pct : ℚ)
    (mode : String) : ExitResult :=
  let p := profitPct price_buy price_curr
  let label0 := zoneLabel mode p
  let label1 :=
    if p ≤ 5 then (if mode = "short" then label0 ++ "/損切管理" else label0)
    else (if mode = "short" then label0 ++ "/建値防衛" else label0)
  let sug := suggestedPrice price_buy price_high ma75 stop_pct trail_pct mode p
  if price_curr ≤ sug then
    { order_price := price_curr * 0.985, raw_line := sug,
      label := "🚨 緊急脱出", is_emergency := true, profit_pct := p }
  else
    { order_price := sug, raw_line := sug,
      label := label1, is_emergency := false, profit_pct := p }

/-- One row of the enriched frame as read by `analyze_entry_strategy` and by
the dashboard's inline scoring: NaN-able `MA5`, `MA25`, `RSI`, `VolMA5`
cells and the raw `Volume`. -/
structure EntryBar where
  ma5 : Option ℚ
  ma25 : Option ℚ
  rsi : Option ℚ
  volMA5 : Option ℚ
  volume : ℚ
deriving DecidableEq, Repr

/-- Default row used only to express `iloc[-1]` / `iloc[-2]` totally. -/
def entryBarDefault : EntryBar := ⟨none, none, none, none, 0⟩

/-- `iloc[-1]`: the last row of the frame. -/
def lastEB (df : List EntryBar) : EntryBar :=
  df.getLastD entryBarDefault

/-- `iloc[-2]`: the second-to-last row of the frame. -/
def prevEB (df : List EntryBar) : EntryBar :=
  df.dropLast.getLastD entryBarDefault

/-- `src/logic.py` line 156: `rsi < 35` on the last row (False when NaN). -/
def entryRsiCond (df : List EntryBar) : Bool :=
  nanLt (lastEB df).rsi (some 35)

/-- `src/logic.py` line 163: golden cross, `ma5 > ma25 and prev_ma5 <= prev_ma25`
(False on NaN). -/
def entryCrossCond (df : List EntryBar) : Bool :=
  nanGt (lastEB df).ma5 (lastEB df).ma25 && nanLe (prevEB df).ma5 (prevEB df).ma25

/-- `src/logic.py` line 167: `vol_ma5 > 0 and vol_curr > (vol_ma5 * 1.5)`
(False on NaN). -/
def entryVolCond (df : List EntryBar) : Bool :=
  nanGt (lastEB df).volMA5 (some 0) &&
    nanGt (some (lastEB df).volume) (optMulC (lastEB df).volMA5 1.5)

/-- `src/logic.py` lines 140-171, `analyze_entry_strategy(df)`: returns
`(score, reasons)`; empty/None frame yields `(0, [])`; otherwise +50 for RSI
oversold, +50 for a golden cross (only checked when `len(df) >= 2`), +20 for
a volume surge, reasons appended in that order. -/
def analyze_entry_strategy (df : List EntryBar) : ℕ × List String :=
  if df.isEmpty then (0, [])
  else
    let r1 := if entryRsiCond df then ((50 : ℕ), ["RSI低値圏"]) else (0, [])
    let r2 :=
      if 2 ≤ df.length then
        if entryCrossCond df then ((50 : ℕ), ["ゴールデンクロス"]) else (0, [])
      else (0, [])
    let r3 := if entryVolCond df then ((20 : ℕ), ["出来高急増"]) else (0, [])
    (r1.1 + r2.1 + r3.1, r1.2 ++ r2.2 ++ r3.2)

/-- `src/streamlit_app.py` lines 368-374 (inside `main`): the dashboard's
inline watchlist scoring.  Unlike `analyze_entry_strategy`, the golden-cross
check is an `elif` hanging off the RSI check, so at most one of the two
+50 bonuses can fire. -/
def streamlitWatchScore (df : List EntryBar) : ℕ :=
  let s1 :=
    if entryRsiCond df then (50 : ℕ)
    else if entryCrossCond df then 50
    else 0
  let s2 := if entryVolCond df then (20 : ℕ) else 0
  s1 + s2

/-- `src/logic.py` lines 176-194, `calculate_position_size(total_capital,
risk_pct, price_curr, stop_pct)`: risk-budget and buying-power share counts,
floored to a 100-share lot; returns 0 when `price_curr <= 0`. -/
def calculate_position_size (total_capital risk_pct price_curr stop_pct : ℚ) : ℤ :=
  if price_curr ≤ 0 then 0
  else
    let risk_limit := total_capital * (risk_pct / 100)
    let dist := price_curr * stop_pct
    let risk_based_shares := if dist ≤ 0 then 0 else risk_limit / dist
    let budget_based_shares := total_capital / price_curr
    let final_raw_shares := min risk_based_shares budget_based_shares
    ⌊final_raw_shares / 100⌋ * 100

/-- pandas `Series.rolling(window=w).mean()` on a NaN-free series: NaN until
the window is full, then the arithmetic mean of the trailing `w` values. -/
def rollingMean (w : ℕ) (xs : List ℚ) : List (Option ℚ) :=
  (List.range xs.length).map
    (fun i =>
      if i + 1 < w then none
      else some ((((xs.take (i + 1)).drop (i + 1 - w)).sum) / (w : ℚ)))

/-- `src/logic.py` line 22: `delta = df['Close'].diff()` — NaN at position 0,
`close[i] - close[i-1]` afterwards. -/
def deltaList (closes : List ℚ) : List (Option ℚ) :=
  match closes with
  | [] => []
  | _ :: t => none :: List.zipWith (fun b a => some (b - a)) t closes

/-- `src/logic.py` line 23: `delta.where(delta > 0, 0)` — the NaN at position
0 compares False against 0 and is replaced by 0, as is every non-positive
delta. -/
def gainTerms (closes : List ℚ) : List ℚ :=
  (deltaList closes).map
    (fun d => match d with | none => 0 | some x => if 0 < x then x else 0)

/-- `src/logic.py` line 24: `-delta.where(delta < 0, 0)` — 0 where the delta
is NaN or non-negative, `-delta` otherwise. -/
def lossTerms (closes : List ℚ) : List ℚ :=
  (deltaList closes).map
    (fun d => match d with | none => 0 | some x => if x < 0 then -x else 0)

/-- `src/logic.py` line 25:
`RSI = 100 - (100 / (1 + (gain / (loss + 1e-10))))` with `gain`, `loss` the
14-bar rolling means of `gainTerms` / `lossTerms`; NaN while either rolling
mean is NaN. -/
def rsiCell (g l : Option ℚ) : Option ℚ :=
  match g, l with
  | some g, some l => some (100 - 100 / (1 + g / (l + 1e-10)))
  | _, _ => none

/-- `src/logic.py` line 25 (continued): the whole `RSI` column, the cell
formula zipped over the two rolling means. -/
def rsiList (closes : List ℚ) : List (Option ℚ) :=
  List.zipWith rsiCell (rollingMean 14 (gainTerms closes)) (rollingMean 14 (lossTerms closes))

/-- The raw OHLCV frame handed to `add_technical_indicators`: the raw
columns plus the five indicator columns, each `none` while the column is
absent from the frame. -/
structure DataFrame where
  close : List ℚ
  high : List (Option ℚ)
  volume : List ℚ
  ma5 : Option (List (Option ℚ))
  ma25 : Option (List (Option ℚ))
  ma75 : Option (List (Option ℚ))
  rsi : Option (List (Option ℚ))
  volMA5 : Option (List (Option ℚ))
deriving DecidableEq, Repr

/-- `src/logic.py` lines 8-30, `add_technical_indicators(df)`: returns `None`
for a null/empty frame; otherwise assigns the `MA5`, `MA25`, `MA75`, `RSI`,
`VolMA5` columns on `df` and returns `df` itself. -/
def add_technical_indicators (df : DataFrame) : Option DataFrame :=
  if df.close.isEmpty then none
  else
    some { df with
      ma5 := some (rollingMean 5 df.close)
      ma25 := some (rollingMean 25 df.close)
      ma75 := some (rollingMean 75 df.close)
      rsi := some (rsiList df.close)
      volMA5 := some (rollingMean 5 df.volume) }

/-- The caller's frame after `add_technical_indicators(df)` returns: the
column assignments `df['MA5'] = ...` in the source mutate the argument in
place, so on a non-empty frame the caller's binding holds the enriched frame;
on an empty frame the function returns `None` before touching `df`. -/
def frameAfterCall (df : DataFrame) : DataFrame :=
  match add_technical_indicators df with
  | none => df
  | some d => d

/- ===================== Helper lemmas ===================== -/

lemma drop_length_sub_one {α : Type} (l : List α) (h : l ≠ []) :
    l.drop (l.length - 1) = [l.getLast h] := by
  induction l with
  | nil => exact absurd rfl h
  | cons a t ih =>
      cases t with
      | nil => simp
      | cons b u =>
          have ht : b :: u ≠ [] := by simp
          have : (a :: b :: u).length - 1 = ((b :: u).length - 1) + 1 := by
            simp [List.length]
          rw [this, List.drop_succ_cons, ih ht, List.getLast_cons ht]

lemma targetBars_ne_nil (bars : List MBar) (h : bars ≠ []) (ts : Option (Option ℤ)) :
    targetBars bars ts ≠ [] := by
  match ts with
  | none => simpa [targetBars] using h
  | some none => simpa [targetBars] using h
  | some (some d) =>
      simp only [targetBars]
      split
      · rw [drop_length_sub_one bars h]
        simp
      · rename_i hf
        simpa [List.isEmpty_iff] using hf

/- ===================== Claim theorems ===================== -/

/-- C1: for every non-empty price series, every `purchasePrice > 0` and every
purchase-timestamp outcome (missing, unparseable, or parsed), the recent high
returned by `get_latest_metrics` is `>= purchasePrice`; when the selected
subset has no defined `High` value it falls back to
`max(purchasePrice, currentClose)`. -/
theorem recent_high_ge_purchase (f : MetricsFrame) (p : ℚ) (ts : Option (Option ℤ))
    (hne : f.bars ≠ []) (_hp : 0 < p) :
    p ≤ (get_latest_metrics f p ts).2.1 ∧
    (maxOfHighs (targetBars f.bars ts) = none →
      (get_latest_metrics f p ts).2.1 = max p (f.bars.getLastD mbarDefault).close) := by
  have hE : f.bars.isEmpty = false := by simpa [List.isEmpty_iff] using hne
  constructor
  · cases h : maxOfHighs (targetBars f.bars ts) <;>
      simp [get_latest_metrics, hE, h, le_max_left]
  · intro h
    simp [get_latest_metrics, hE, h]

/-- C1 witness: a concrete one-bar series with a parsed timestamp. -/
theorem recent_high_ge_purchase_witness :
    (⟨[⟨0, 3, none, none, none⟩], true, true⟩ : MetricsFrame).bars ≠ [] ∧
    (0 : ℚ) < 5 ∧
    (5 : ℚ) ≤ (get_latest_metrics ⟨[⟨0, 3, none, none, none⟩], true, true⟩ 5 (some (some 1))).2.1 :=
  ⟨by decide, by decide,
    (recent_high_ge_purchase ⟨[⟨0, 3, none, none, none⟩], true, true⟩ 5 (some (some 1))
      (by decide) (by decide)).1⟩

/-- C7: on a non-empty series, `get_latest_metrics` selects the subset for
the period high as follows and totally (never raising): a parsed timestamp
keeps the bars dated on or after the purchase date (every selected bar
satisfies that bound); when that filtered set is empty it keeps only the most
recent bar; a missing or unparseable timestamp keeps the full series; the
selected subset is never empty, and the returned recent high is the floored
maximum over exactly that subset's `High` values. -/
theorem target_selection_spec (bars : List MBar) (h : bars ≠ []) :
    (∀ d : ℤ,
      (bars.filter (fun b => decide (d ≤ b.date)) ≠ [] →
        targetBars bars (some (some d)) = bars.filter (fun b => decide (d ≤ b.date)) ∧
        ∀ b ∈ targetBars bars (some (some d)), d ≤ b.date) ∧
      (bars.filter (fun b => decide (d ≤ b.date)) = [] →
        targetBars bars (some (some d)) = [bars.getLast h])) ∧
    targetBars bars none = bars ∧
    targetBars bars (some none) = bars ∧
    (∀ ts, targetBars bars ts ≠ []) ∧
    (∀ p ts, (get_latest_metrics ⟨bars, true, true⟩ p ts).2.1 =
      match maxOfHighs (targetBars bars ts) with
      | none => max p (bars.getLastD mbarDefault).close
      | some ph => max p ph) := by
  have hE : bars.isEmpty = false := by simpa [List.isEmpty_iff] using h
  refine ⟨fun d => ⟨fun hf => ?_, fun hf => ?_⟩, by simp [targetBars], by simp [targetBars],
    targetBars_ne_nil bars h, fun p ts => ?_⟩
  · have hfe : (bars.filter (fun b => decide (d ≤ b.date))).isEmpty = false := by
      simpa [List.isEmpty_iff] using hf
    refine ⟨by simp [targetBars, hfe], fun b hb => ?_⟩
    simp only [targetBars, hfe, if_false, Bool.false_eq_true] at hb
    exact of_decide_eq_true (List.mem_filter.mp hb).2
  · have hfe : (bars.filter (fun b => decide (d ≤ b.date))).isEmpty = true := by
      simpa [List.isEmpty_iff] using hf
    simp [targetBars, hfe, drop_length_sub_one bars h]
  · cases hm : maxOfHighs (targetBars bars ts) <;>
      simp [get_latest_metrics, hE, hm]

/-- C7 witness: a one-bar series with a missing timestamp keeps the full
series. -/
theorem target_selection_spec_witness :
    ([⟨0, 3, some 4, none, none⟩] : List MBar) ≠ [] ∧
    targetBars [⟨0, 3, some 4, none, none⟩] none = [⟨0, 3, some 4, none, none⟩] :=
  ⟨by decide, (target_selection_spec [⟨0, 3, some 4, none, none⟩] (by decide)).2.1⟩

/-- C2: with `purchasePrice > 0`, `calculate_exit_strategy` flags an
emergency exactly when `suggestedPrice >= currentPrice`; then the order price
is `currentPrice * 0.985` exactly and the label is the emergency label,
overriding the zone label; otherwise the order price is the suggested price;
`rawLine = suggestedPrice` in both cases. -/
theorem exit_emergency_spec (pb pc ph m75 sp tp : ℚ) (mode : String) (_hpb : 0 < pb) :
    ((calculate_exit_strategy pb pc ph m75 sp tp mode).is_emergency = true ↔
      pc ≤ suggestedPrice pb ph m75 sp tp mode (profitPct pb pc)) ∧
    (pc ≤ suggestedPrice pb ph m75 sp tp mode (profitPct pb pc) →
      (calculate_exit_strategy pb pc ph m75 sp tp mode).order_price = pc * 0.985 ∧
      (calculate_exit_strategy pb pc ph m75 sp tp mode).label = "🚨 緊急脱出") ∧
    (¬ pc ≤ suggestedPrice pb ph m75 sp tp mode (profitPct pb pc) →
      (calculate_exit_strategy pb pc ph m75 sp tp mode).order_price =
        suggestedPrice pb ph m75 sp tp mode (profitPct pb pc)) ∧
    (calculate_exit_strategy pb pc ph m75 sp tp mode).raw_line =
      suggestedPrice pb ph m75 sp tp mode (profitPct pb pc) := by
  by_cases h : pc ≤ suggestedPrice pb ph m75 sp tp mode (profitPct pb pc) <;>
    simp [calculate_exit_strategy, h]

/-- C2 witness: the spec's Scenario 3 (an emergency). -/
theorem exit_emergency_spec_witness :
    (0 : ℚ) < 1000 ∧
    (900 : ℚ) ≤ suggestedPrice 1000 1000 0 (5/100) (10/100) "short" (profitPct 1000 900) ∧
    (calculate_exit_strategy 1000 900 1000 0 (5/100) (10/100) "short").order_price =
      900 * 0.985 ∧
    (calculate_exit_strategy 1000 900 1000 0 (5/100) (10/100) "short").label =
      "🚨 緊急脱出" := by
  have hsug : suggestedPrice 1000 1000 0 (5/100) (10/100) "short" (profitPct 1000 900) = 950 := by
    norm_num [suggestedPrice, baseLine, trailLine, maLine, usedTrailPct, profitPct, max_def]
  refine ⟨by norm_num, by rw [hsug]; norm_num, ?_⟩
  exact (exit_emergency_spec 1000 900 1000 0 (5/100) (10/100) "short" (by norm_num)).2.1
    (by rw [hsug]; norm_num)

/-- C3: with `purchasePrice > 0`, the `rawLine` returned by
`calculate_exit_strategy` is `max(baseLine, trailLine, maLine)`, where the
base line is the stop-loss defense `purchasePrice*(1-stopPct)` when
`profitPct <= 5` and `purchasePrice` otherwise (in either mode), and the
trail line is `recentHigh*(1-usedTrailPct)`; hence the raw line dominates
both the base line and the trail line. -/
theorem exit_raw_line_spec (pb pc ph m75 sp tp : ℚ) (mode : String) (_hpb : 0 < pb) :
    (calculate_exit_strategy pb pc ph m75 sp tp mode).raw_line =
      max (baseLine pb (profitPct pb pc) sp)
        (max (trailLine ph (usedTrailPct mode (profitPct pb pc) tp))
          (maLine mode (profitPct pb pc) m75)) ∧
    (profitPct pb pc ≤ 5 → baseLine pb (profitPct pb pc) sp = pb * (1 - sp)) ∧
    (5 < profitPct pb pc → baseLine pb (profitPct pb pc) sp = pb) ∧
    trailLine ph (usedTrailPct mode (profitPct pb pc) tp) =
      ph * (1 - usedTrailPct mode (profitPct pb pc) tp) ∧
    baseLine pb (profitPct pb pc) sp ≤
      (calculate_exit_strategy pb pc ph m75 sp tp mode).raw_line ∧
    trailLine ph (usedTrailPct mode (profitPct pb pc) tp) ≤
      (calculate_exit_strategy pb pc ph m75 sp tp mode).raw_line := by
  have hraw : (calculate_exit_strategy pb pc ph m75 sp tp mode).raw_line =
      suggestedPrice pb ph m75 sp tp mode (profitPct pb pc) := by
    by_cases h : pc ≤ suggestedPrice pb ph m75 sp tp mode (profitPct pb pc) <;>
      simp [calculate_exit_strategy, h]
  refine ⟨by rw [hraw]; rfl, fun h => by simp [baseLine, h],
    fun h => by simp [baseLine, not_le.mpr h], rfl, ?_, ?_⟩
  · rw [hraw]
    exact le_max_left _ _
  · rw [hraw]
    exact le_max_of_le_right (le_max_left _ _)

/-- C3 witness: the spec's Scenario 1. -/
theorem exit_raw_line_spec_witness :
    (0 : ℚ) < 1000 ∧
    (calculate_exit_strategy 1000 1200 1200 0 (5/100) (10/100) "short").raw_line =
      max (baseLine 1000 (profitPct 1000 1200) (5/100))
        (max (trailLine 1200 (usedTrailPct "short" (profitPct 1000 1200) (10/100)))
          (maLine "short" (profitPct 1000 1200) 0)) :=
  ⟨by norm_num,
    (exit_raw_line_spec 1000 1200 1200 0 (5/100) (10/100) "short" (by norm_num)).1⟩

/-- C4: the trailing width used by `calculate_exit_strategy` in long mode is
the user's `trailPct` below 10% profit, the fixed 0.15 on `[10, 30)`, and the
fixed 0.20 from 30% up (inclusive lower bounds, so exactly 10 gives 0.15 and
exactly 30 gives 0.20 with the MA75 floor active); the MA75 floor is `ma75`
exactly in long mode at `profitPct >= 30` and 0 otherwise; short mode always
uses `trailPct` and never includes `ma75`. -/
theorem exit_zone_selection_spec (p tp m75 : ℚ) :
    (p < 10 → usedTrailPct "long" p tp = tp) ∧
    (10 ≤ p → p < 30 → usedTrailPct "long" p tp = 0.15) ∧
    (30 ≤ p → usedTrailPct "long" p tp = 0.20) ∧
    (30 ≤ p → maLine "long" p m75 = m75) ∧
    (p < 30 → maLine "long" p m75 = 0) ∧
    usedTrailPct "short" p tp = tp ∧
    maLine "short" p m75 = 0 ∧
    usedTrailPct "long" 10 tp = 0.15 ∧
    usedTrailPct "long" 30 tp = 0.20 ∧
    maLine "long" 30 m75 = m75 := by
  refine ⟨fun h => by simp [usedTrailPct, h],
    fun h1 h2 => by simp [usedTrailPct, not_lt.mpr h1, h1, h2],
    fun h => ?_, fun h => by simp [maLine, h],
    fun h => by simp [maLine, not_le.mpr h],
    by simp [usedTrailPct], by simp [maLine],
    by norm_num [usedTrailPct], by norm_num [usedTrailPct], by norm_num [maLine]⟩
  have h10 : ¬ p < 10 := by linarith
  have h30 : ¬ p < 30 := not_lt.mpr h
  simp [usedTrailPct, h10, h30]

/-- C4 witness: the boundary profit of exactly 30% in long mode. -/
theorem exit_zone_selection_spec_witness :
    (30 : ℚ) ≤ 30 ∧ usedTrailPct "long" 30 (10/100) = 0.20 ∧
    maLine "long" 30 (7/2) = 7/2 :=
  ⟨by norm_num, (exit_zone_selection_spec 30 (10/100) (7/2)).2.2.1 (by norm_num),
    (exit_zone_selection_spec 30 (10/100) (7/2)).2.2.2.1 (by norm_num)⟩

/-- C5: on an enriched series with at least 2 bars, `analyze_entry_strategy`
scores additively with independent triggers (+50 RSI oversold, +50 golden
cross, +20 volume surge), emits the reason strings in exactly that check
order, always lands in {0, 20, 50, 70, 100, 120}, and scores at least 100
when both RSI-oversold and golden-cross fire. -/
theorem entry_score_spec (df : List EntryBar) (h : 2 ≤ df.length) :
    (analyze_entry_strategy df).1 =
      (if entryRsiCond df then 50 else 0) + (if entryCrossCond df then 50 else 0) +
        (if entryVolCond df then 20 else 0) ∧
    (analyze_entry_strategy df).2 =
      (if entryRsiCond df then ["RSI低値圏"] else []) ++
        (if entryCrossCond df then ["ゴールデンクロス"] else []) ++
        (if entryVolCond df then ["出来高急増"] else []) ∧
    ((analyze_entry_strategy df).1 = 0 ∨ (analyze_entry_strategy df).1 = 20 ∨
      (analyze_entry_strategy df).1 = 50 ∨ (analyze_entry_strategy df).1 = 70 ∨
      (analyze_entry_strategy df).1 = 100 ∨ (analyze_entry_strategy df).1 = 120) ∧
    (entryRsiCond df = true → entryCrossCond df = true →
      100 ≤ (analyze_entry_strategy df).1) := by
  have hne : df.isEmpty = false := by
    cases df with
    | nil => simp at h
    | cons a t => simp
  cases hr : entryRsiCond df <;> cases hc : entryCrossCond df <;>
    cases hv : entryVolCond df <;>
    simp [analyze_entry_strategy, hne, h, hr, hc, hv]

/-- C5 witness: a two-bar frame firing both the RSI and golden-cross
triggers. -/
theorem entry_score_spec_witness :
    2 ≤ ([⟨some 1, some 2, none, none, 0⟩, ⟨some 3, some 2, some 30, none, 0⟩] :
      List EntryBar).length ∧
    entryRsiCond [⟨some 1, some 2, none, none, 0⟩, ⟨some 3, some 2, some 30, none, 0⟩] = true ∧
    entryCrossCond [⟨some 1, some 2, none, none, 0⟩, ⟨some 3, some 2, some 30, none, 0⟩] = true ∧
    100 ≤ (analyze_entry_strategy
      [⟨some 1, some 2, none, none, 0⟩, ⟨some 3, some 2, some 30, none, 0⟩]).1 :=
  ⟨by decide, by decide, by decide,
    (entry_score_spec [⟨some 1, some 2, none, none, 0⟩, ⟨some 3, some 2, some 30, none, 0⟩]
      (by decide)).2.2.2 (by decide) (by decide)⟩

/-- C6: with `totalCapital > 0`, `riskPct` in (0,100] and `stopPct` in (0,1),
`calculate_position_size` returns 0 when `currentPrice <= 0`, and otherwise
the risk-capped, budget-capped share count floored to a 100-share lot. -/
theorem position_size_spec (T r pc s : ℚ) (_hT : 0 < T) (_hr1 : 0 < r) (_hr2 : r ≤ 100)
    (hs1 : 0 < s) (_hs2 : s < 1) :
    (pc ≤ 0 → calculate_position_size T r pc s = 0) ∧
    (0 < pc → calculate_position_size T r pc s =
      ⌊min (T * (r / 100) / (pc * s)) (T / pc) / 100⌋ * 100) := by
  constructor
  · intro h
    simp [calculate_position_size, h]
  · intro h
    have hd : 0 < pc * s := mul_pos h hs1
    simp [calculate_position_size, not_le.mpr h, not_le.mpr hd]

/-- C6 witness: the spec's Scenario 4, which yields exactly 800 shares. -/
theorem position_size_spec_witness :
    calculate_position_size 1000000 2 500 (5/100) = 800 := by
  have h := (position_size_spec 1000000 2 500 (5/100) (by norm_num) (by norm_num)
    (by norm_num) (by norm_num) (by norm_num)).2 (by norm_num)
  rw [h]
  norm_num [min_def]

/-- C10 counterexample: a two-bar frame firing both RSI-oversold and the
golden cross; the dashboard's inline scoring (whose golden-cross check is an
`elif` on the RSI check) gives 50 while `analyze_entry_strategy` gives 100. -/
theorem watch_score_diverges_cex :
    streamlitWatchScore
        [⟨some 1, some 2, none, none, 0⟩, ⟨some 3, some 2, some 30, none, 0⟩] = 50 ∧
    (analyze_entry_strategy
        [⟨some 1, some 2, none, none, 0⟩, ⟨some 3, some 2, some 30, none, 0⟩]).1 = 100 ∧
    streamlitWatchScore
        [⟨some 1, some 2, none, none, 0⟩, ⟨some 3, some 2, some 30, none, 0⟩] ≠
      (analyze_entry_strategy
        [⟨some 1, some 2, none, none, 0⟩, ⟨some 3, some 2, some 30, none, 0⟩]).1 := by
  refine ⟨by decide, by decide, by decide⟩

/-- C10 (amended): on a series with at least 2 bars the two scorings agree
except that the inline dashboard scoring skips the golden-cross bonus
whenever the RSI-oversold condition fires: the library score is the
dashboard score plus 50 exactly when both conditions hold. -/
theorem watch_score_vs_entry_score (df : List EntryBar) (h : 2 ≤ df.length) :
    (analyze_entry_strategy df).1 =
      streamlitWatchScore df +
        (if entryRsiCond df && entryCrossCond df then 50 else 0) := by
  have hne : df.isEmpty = false := by
    cases df with
    | nil => simp at h
    | cons a t => simp
  cases hr : entryRsiCond df <;> cases hc : entryCrossCond df <;>
    cases hv : entryVolCond df <;>
    simp [analyze_entry_strategy, streamlitWatchScore, hne, h, hr, hc, hv]

/-- C10 (amended) witness: a two-bar frame where only the golden cross
fires, on which the two scorings agree. -/
theorem watch_score_vs_entry_score_witness :
    2 ≤ ([⟨some 1, some 2, none, none, 0⟩, ⟨some 3, some 2, some 40, none, 0⟩] :
      List EntryBar).length ∧
    (analyze_entry_strategy
        [⟨some 1, some 2, none, none, 0⟩, ⟨some 3, some 2, some 40, none, 0⟩]).1 =
      streamlitWatchScore
          [⟨some 1, some 2, none, none, 0⟩, ⟨some 3, some 2, some 40, none, 0⟩] +
        (if entryRsiCond [⟨some 1, some 2, none, none, 0⟩, ⟨some 3, some 2, some 40, none, 0⟩] &&
            entryCrossCond [⟨some 1, some 2, none, none, 0⟩, ⟨some 3, some 2, some 40, none, 0⟩]
          then 50 else 0) :=
  ⟨by decide,
    watch_score_vs_entry_score
      [⟨some 1, some 2, none, none, 0⟩, ⟨some 3, some 2, some 40, none, 0⟩] (by decide)⟩

lemma rollingMean_nonneg (w : ℕ) (xs : List ℚ) (hxs : ∀ x ∈ xs, 0 ≤ x) :
    ∀ o ∈ rollingMean w xs, ∀ v, o = some v → 0 ≤ v := by
  intro o ho v hv
  simp only [rollingMean, List.mem_map, List.mem_range] at ho
  obtain ⟨i, _, rfl⟩ := ho
  by_cases hw : i + 1 < w
  · simp [hw] at hv
  · simp only [hw, if_false] at hv
    obtain rfl : (((xs.take (i + 1)).drop (i + 1 - w)).sum) / (w : ℚ) = v :=
      Option.some_injective _ hv
    apply div_nonneg _ (by positivity)
    apply List.sum_nonneg
    intro x hx
    exact hxs x (List.mem_of_mem_take (List.mem_of_mem_drop hx))

lemma gainTerms_nonneg (closes : List ℚ) : ∀ x ∈ gainTerms closes, 0 ≤ x := by
  intro x hx
  simp only [gainTerms, List.mem_map] at hx
  obtain ⟨d, _, rfl⟩ := hx
  match d with
  | none => simp
  | some v =>
      by_cases h : 0 < v
      · simpa [h] using h.le
      · simp [h]

lemma lossTerms_nonneg (closes : List ℚ) : ∀ x ∈ lossTerms closes, 0 ≤ x := by
  intro x hx
  simp only [lossTerms, List.mem_map] at hx
  obtain ⟨d, _, rfl⟩ := hx
  match d with
  | none => simp
  | some v =>
      by_cases h : v < 0
      · simp only [h, if_true]
        linarith
      · simp [h]

lemma rsiCell_bound (g l r : ℚ) (hg : 0 ≤ g) (hl : 0 ≤ l)
    (h : rsiCell (some g) (some l) = some r) : 0 ≤ r ∧ r ≤ 100 := by
  obtain rfl : 100 - 100 / (1 + g / (l + 1e-10)) = r := Option.some_injective _ h
  have hden : (0 : ℚ) < l + 1e-10 := by positivity
  have hq : 0 ≤ g / (l + 1e-10) := div_nonneg hg hden.le
  have h1 : (1 : ℚ) ≤ 1 + g / (l + 1e-10) := by linarith
  have hle : 100 / (1 + g / (l + 1e-10)) ≤ 100 := by
    calc 100 / (1 + g / (l + 1e-10)) ≤ 100 / 1 := by
          apply div_le_div_of_nonneg_left (by norm_num) (by norm_num) h1
      _ = 100 := by norm_num
  have hgt : 0 < 100 / (1 + g / (l + 1e-10)) := div_pos (by norm_num) (by linarith)
  constructor <;> linarith

lemma zipWith_rsiCell_bound (gs ls : List (Option ℚ))
    (hg : ∀ x ∈ gs, ∀ v : ℚ, x = some v → 0 ≤ v)
    (hl : ∀ x ∈ ls, ∀ v : ℚ, x = some v → 0 ≤ v) :
    ∀ (i : ℕ) (r : ℚ), (List.zipWith rsiCell gs ls).get? i = some (some r) →
      0 ≤ r ∧ r ≤ 100 := by
  induction gs generalizing ls with
  | nil => intro i r h; simp at h
  | cons g gt ih =>
      intro i r h
      cases ls with
      | nil => simp at h
      | cons l lt =>
          cases i with
          | zero =>
              simp only [List.zipWith, List.get?] at h
              obtain hc : rsiCell g l = some r := Option.some_injective _ h
              match g, l with
              | none, _ => simp [rsiCell] at hc
              | some gv, none => simp [rsiCell] at hc
              | some gv, some lv =>
                  exact rsiCell_bound gv lv r
                    (hg (some gv) (List.mem_cons_self _ _) gv rfl)
                    (hl (some lv) (List.mem_cons_self _ _) lv rfl) hc
          | succ n =>
              exact ih lt
                (fun x hx => hg x (List.mem_cons_of_mem _ hx))
                (fun x hx => hl x (List.mem_cons_of_mem _ hx)) n r (by simpa using h)

/-- C8: every defined `RSI` value produced by `add_technical_indicators`
(the simple rolling-mean RSI `100 - 100/(1 + gain/(loss + 1e-10))`) lies in
[0, 100], for any input series. -/
theorem rsi_in_unit_range (closes : List ℚ) (i : ℕ) (r : ℚ)
    (h : (rsiList closes).get? i = some (some r)) : 0 ≤ r ∧ r ≤ 100 := by
  exact zipWith_rsiCell_bound _ _
    (rollingMean_nonneg 14 _ (gainTerms_nonneg closes))
    (rollingMean_nonneg 14 _ (lossTerms_nonneg closes)) i r h

/-- C8 witness: a flat 14-bar series, whose first defined RSI cell is 0. -/
theorem rsi_in_unit_range_witness :
    (rsiList (List.replicate 14 1)).get? 13 = some (some 0) ∧
    (0 : ℚ) ≤ 0 ∧ (0 : ℚ) ≤ 100 :=
  ⟨by
    norm_num [rsiList, rsiCell, rollingMean, gainTerms, lossTerms, deltaList,
      List.replicate, List.range_succ],
   rsi_in_unit_range (List.replicate 14 1) 13 0 (by
    norm_num [rsiList, rsiCell, rollingMean, gainTerms, lossTerms, deltaList,
      List.replicate, List.range_succ])⟩

/-- C9 counterexample: on a concrete one-bar frame with no indicator
columns, the caller's frame after `add_technical_indicators` differs from
the frame passed in — the column assignments `df['MA5'] = ...` mutate the
argument in place, so the call is not free of side effects on its input. -/
theorem add_indicators_mutates_cex :
    frameAfterCall ⟨[1], [none], [1], none, none, none, none, none⟩ ≠
      (⟨[1], [none], [1], none, none, none, none, none⟩ : DataFrame) := by
  decide

/-- C9 (amended): `add_technical_indicators` enriches its argument in place:
on a non-empty series the caller's frame after the call is exactly the
returned enriched frame (raw `Close`/`High`/`Volume` columns unchanged, the
five indicator columns overwritten), rather than the caller's input being
left unchanged. -/
theorem add_indicators_in_place (df : DataFrame) (h : ¬ df.close.isEmpty) :
    frameAfterCall df =
      { df with
        ma5 := some (rollingMean 5 df.close)
        ma25 := some (rollingMean 25 df.close)
        ma75 := some (rollingMean 75 df.close)
        rsi := some (rsiList df.close)
        volMA5 := some (rollingMean 5 df.volume) } ∧
    (frameAfterCall df).close = df.close ∧
    (frameAfterCall df).high = df.high ∧
    (frameAfterCall df).volume = df.volume ∧
    add_technical_indicators df = some (frameAfterCall df) := by
  have hE : df.close.isEmpty = false := by simpa using h
  simp [frameAfterCall, add_technical_indicators, hE]

/-- C9 (amended) witness: a concrete one-bar frame. -/
theorem add_indicators_in_place_witness :
    frameAfterCall ⟨[2], [some 3], [4], none, none, none, none, none⟩ =
      { (⟨[2], [some 3], [4], none, none, none, none, none⟩ : DataFrame) with
        ma5 := some (rollingMean 5 [2])
        ma25 := some (rollingMean 25 [2])
        ma75 := some (rollingMean 75 [2])
        rsi := some (rsiList [2])
        volMA5 := some (rollingMean 5 [4]) } :=
  (add_indicators_in_place ⟨[2], [some 3], [4], none, none, none, none, none⟩ (by decide)).1
